import Mathlib

/-!
Shallow embedding of the `@rpappa/create` scaffolding CLI (src/cli.js).

The CLI is a sequential orchestrator: it resolves four decisions from
flags/prompts, then performs an ordered sequence of side effects (shell
commands, file copies, structured config edits).  We model:

* the pure decision logic of each resolver (`checkEmptyDirectory`,
  `checkCreateWorkspace`, `checkCreateMonorepo`, `getScope`) exactly as in
  the source, with prompt answers supplied as inputs;
* side effects as an explicit event trace (`Ev`), so temporal claims are
  claims about list order;
* the tsconfig patch-list construction of `patchTsconfigJson` and the
  per-document patch plan of `preparePackage`;
* the `.eslintrc.cjs` substring edit as a first-occurrence replacement on
  character lists (the semantics of JS `String.prototype.replace` with a
  string pattern, modulo dollar escapes which never arise here);
* the promise settlement of `runCommand` as a list of settle/teardown
  actions where the first settle wins (JS promise semantics).
-/

namespace Create

/-- JS whitespace for `String.prototype.trim` (the characters that occur in
practice; the full JS set also has exotic Unicode spaces). -/
def jsWhitespace (c : Char) : Bool :=
  c = ' ' || c = '\t' || c = '\n' || c = '\r'

/-- JS `String.prototype.trim`: drop leading and trailing whitespace. -/
def jsTrim (s : String) : String :=
  ⟨((s.data.dropWhile jsWhitespace).reverse.dropWhile jsWhitespace).reverse⟩

/-- JS `String.prototype.startsWith`. -/
def jsStartsWith (s pre : String) : Bool :=
  pre.data.isPrefixOf s.data

/-- JS truthiness of `string | undefined` (`undefined` and `""` are falsy). -/
def jsTruthyOpt (o : Option String) : Bool :=
  match o with
  | none => false
  | some s => decide (s ≠ "")

/-- One observable side effect of the CLI. -/
inductive Ev where
  | logEv (msg : String)
  | errEv (msg : String)
  | warnEv (msg : String)
  | promptConfirm (msg : String)
  | promptText (msg : String)
  | runCmd (cmd : String)
  | readFileEv (p : String)
  | writeFileEv (p : String)
  | mkdirEv (p : String)
  | copyFileEv (src dst : String)
  | copyDirEv (src dst : String)
  | exitEv (code : Nat)
deriving DecidableEq, Repr

/-- cli.js lines 165-182, `checkEmptyDirectory`: prompt for confirmation when
the directory is non-empty and no workspace flag was given; declining logs
and calls `process.exit(0)` (modelled as result `none`). -/
def checkEmptyDirectory (isEmpty : Bool) (wsArg : String) (answer : Bool) :
    List Ev × Option Bool :=
  if ¬isEmpty ∧ wsArg = "" then
    if answer then
      ([Ev.promptConfirm "Current directory is not empty, continue?"], some isEmpty)
    else
      ([Ev.promptConfirm "Current directory is not empty, continue?",
        Ev.logEv "Exiting...", Ev.exitEv 0], none)
  else ([], some isEmpty)

/-- cli.js lines 125-155, `checkCreateWorkspace`: resolve the workspace path.
`pkgExists` is whether `fs.access("./package.json")` succeeds; `answer` is
the text-prompt result (`none` = cancelled/`undefined`). -/
def checkCreateWorkspace (wsArg : String) (isEmpty : Bool) (pkgExists : Bool)
    (answer : Option String) : List Ev × Option String :=
  if isEmpty ∧ wsArg ≠ "" then
    ([Ev.warnEv "Ignoring --workspace flag since current directory is empty"], some "")
  else if ¬pkgExists then
    if wsArg ≠ "" then
      ([Ev.warnEv "Ignoring --workspace flag since no package.json found"], some "")
    else ([], some "")
  else if wsArg ≠ "" then ([], some wsArg)
  else ([Ev.promptText "Workspace to create (e.g. packages/demoLib)"], answer)

/-- cli.js lines 71-91, `checkCreateMonorepo`.  The source parameter is named
`isCreatingWorkspace` but the call site (line 336) passes its negation, so
`false` here means "a workspace is being created". -/
def checkCreateMonorepo (isCreatingWorkspace : Bool) (monorepoArg : Bool)
    (answer : Bool) : List Ev × Bool :=
  if ¬isCreatingWorkspace then
    ((if monorepoArg then [Ev.warnEv "Ignoring --monorepo flag since creating a workspace"]
      else []), false)
  else if monorepoArg then ([], true)
  else ([Ev.promptConfirm "Create monorepo?"], answer)

/-- cli.js lines 94-122, `getScope`: the `--scope=` flag value wins outright
(prefixed with `@` when missing); otherwise the prompt answer is used, an
empty/declined answer (`!response.value`) being an error when the scope is
not optional, and non-empty answers being trimmed when whitespace-only or
already `@`-led, else `@`-prefixed untrimmed. -/
def getScope (scopeArg : String) (isOptional : Bool) (answer : Option String) :
    List Ev × Except String String :=
  if scopeArg ≠ "" then
    ([], .ok (if jsStartsWith scopeArg "@" then scopeArg else "@" ++ scopeArg))
  else
    ([Ev.promptText (if isOptional then "Scope (optional)" else "Scope")],
     match answer with
     | none => if isOptional then .ok "" else .error "Scope is required"
     | some v =>
       if v = "" then (if isOptional then .ok "" else .error "Scope is required")
       else if jsTrim v = "" ∨ jsStartsWith v "@" = true then .ok (jsTrim v)
       else .ok ("@" ++ v))

/-- cli.js lines 185-187, `patchPackageJson`: `npm <workspace> pkg set type=module`. -/
def patchPackageJson (workspace : String) : List Ev :=
  [Ev.runCmd ("npm " ++ workspace ++ " pkg set type=module")]

/-- cli.js lines 255-271, `checkPackageJson`: patch an existing manifest, or
run `npm init` (with `-y` / `--scope=` when applicable) and then patch. -/
def checkPackageJson (yesArg : Bool) (pkgExists : Bool) (scope : String) : List Ev :=
  if pkgExists then
    Ev.logEv "package.json found, continuing..." :: patchPackageJson ""
  else
    (if scope = "" then [Ev.runCmd ("npm init " ++ (if yesArg then "-y" else ""))]
     else [Ev.runCmd ("npm init --scope=" ++ scope ++ " " ++ (if yesArg then "-y" else ""))])
    ++ patchPackageJson ""

/-! ### tsconfig patch model (cli.js lines 190-232 and 404-420) -/

/-- A JSONC value inserted by `jsonc.modify`. -/
inductive PValue where
  | str (s : String)
  | strList (l : List String)
deriving DecidableEq, Repr

/-- One `(path, value)` edit handed to `jsonc.modify`. -/
structure TsPatch where
  path : List String
  value : PValue
deriving DecidableEq, Repr

def outDirPatch : TsPatch :=
  ⟨["compilerOptions", "outDir"], .str "dist"⟩

def includePatch : TsPatch :=
  ⟨["include"], .strList ["src"]⟩

def pathsPatch (scope : String) : TsPatch :=
  ⟨["compilerOptions", "paths", scope ++ "/*"], .strList ["../*/src"]⟩

/-- cli.js lines 204-232, `patchTsconfigJson`: the ordered list of edits it
applies to one document.  `scope` is the optional second argument (`none`
when omitted); `if (scope)` is JS truthiness, so `none` and `some ""` add
no paths entry.  `skipSetup` suppresses the outDir/include edits. -/
def patchTsconfigJson (scope : Option String) (skipSetup : Bool) : List TsPatch :=
  (if skipSetup then [] else [outDirPatch, includePatch]) ++
  (match scope with
   | none => []
   | some s => if s ≠ "" then [pathsPatch s] else [])

/-- cli.js lines 404-420 (inside `preparePackage`): which edits land on which
document.  First component: edits applied to `tsconfig.build.json`; second:
edits applied to `tsconfig.json`.  In a workspace the build file gets the
setup edits (`patchTsconfigJson(tsconfigBuildJsonc)` with `scope`
undefined), and `tsconfig.json` gets only the paths edit, and only when
`scope` is truthy; outside a workspace the sole `tsconfig.json` gets
everything. -/
def tsconfigPatchPlan (workspace : Bool) (scope : String) :
    List TsPatch × List TsPatch :=
  if workspace then
    (patchTsconfigJson none false,
     if scope ≠ "" then patchTsconfigJson (some scope) true else [])
  else
    ([], patchTsconfigJson (some scope) false)

/-! ### eslint substring edit (cli.js lines 238-249) -/

/-- First-occurrence replacement on character lists: the behaviour of JS
`String.prototype.replace` with a string pattern (ignoring `$`-escapes in
the replacement, which the replacement strings of the CLI do not rely on). -/
def replaceFirst (pat rep : List Char) : List Char → List Char
  | [] => if pat = [] then rep else []
  | c :: rest =>
    if pat.isPrefixOf (c :: rest) then rep ++ (c :: rest).drop pat.length
    else c :: replaceFirst pat rep rest

/-- Whether `pat` occurs as a contiguous sublist of `s`. -/
def occursIn (pat : List Char) : List Char → Bool
  | [] => pat.isPrefixOf []
  | c :: rest => pat.isPrefixOf (c :: rest) || occursIn pat rest

/-- The exact commented-out line searched for by `patchEslintImportInternal`. -/
def eslintPattern : String :=
  "// \"import/internal-regex\": \"^@scope/*\","

/-- The active rule it is replaced with, parameterized by the scope. -/
def eslintReplacement (scope : String) : String :=
  "\"import/internal-regex\": \"^" ++ scope ++ "/*\","

/-- cli.js lines 238-249, `patchEslintImportInternal`, as a pure function on
the document text (the read/write around it is in the event trace). -/
def patchEslintImportInternal (scope : String) (doc : String) : String :=
  ⟨replaceFirst eslintPattern.data (eslintReplacement scope).data doc.data⟩

/-! ### runCommand promise model (cli.js lines 36-69) -/

/-- Actions performed by the `runCommand` event handlers, in program order. -/
inductive PAction where
  | destroy
  | resolveA
  | rejectExit (code : Option Int)
  | rejectSpawn
deriving DecidableEq, Repr

/-- The `exit` handler (cli.js lines 59-67).  Note the source has no `else`:
on exit code 0 it destroys+resolves and then falls through to
destroy+reject again; the promise keeps its first settlement. -/
def exitActions (code : Option Int) : List PAction :=
  (if code = some 0 then [.destroy, .resolveA] else []) ++
  [.destroy, .rejectExit code]

/-- The `error` handler (cli.js lines 54-57): teardown then reject. -/
def errorActions : List PAction :=
  [.destroy, .rejectSpawn]

/-- Is this action a promise settlement (resolve or reject)? -/
def isSettle : PAction → Bool
  | .destroy => false
  | _ => true

/-- The settlement a promise keeps: the first resolve/reject performed. -/
def firstSettle (l : List PAction) : Option PAction :=
  l.find? isSettle

/-! ### Event traces of the flows (cli.js lines 327-522)

Directories: `process.cwd()` is modelled as `"."`; the template directories
(under the installed package, line 342-347) as `"template-files/<role>"`.
`runCommand` also logs the command before spawning; that log is folded into
the `runCmd` event. -/

/-- cli.js lines 374-445, `preparePackage`: the ordered side effects of
provisioning one package descriptor.  `scope` is the module-level resolved
scope the function closes over (lines 400, 410-414). -/
def preparePackage (directory workspace sourceFile testFile license scope : String) :
    List Ev :=
  (if license ≠ "" then
    [Ev.runCmd ("npm " ++ workspace ++ " pkg set license=\"" ++ license ++ "\"")]
   else []) ++
  [Ev.runCmd ("npm install " ++ workspace ++ " --save-dev typescript eslint"),
   Ev.runCmd ("npm install " ++ workspace ++ " --save-dev vitest vite-tsconfig-paths"),
   Ev.copyDirEv "template-files/common" directory] ++
  (if workspace ≠ "" then [Ev.copyDirEv "template-files/package" directory] else []) ++
  [Ev.mkdirEv (directory ++ "/src"),
   Ev.copyFileEv ("template-files/code/" ++ sourceFile) (directory ++ "/src/index.ts"),
   Ev.mkdirEv (directory ++ "/test"),
   Ev.copyFileEv ("template-files/code/" ++ testFile) (directory ++ "/test/index.test.ts"),
   Ev.readFileEv (directory ++ "/src/index.ts"),
   Ev.writeFileEv (directory ++ "/src/index.ts")] ++
  (if workspace ≠ "" then
    [Ev.readFileEv (directory ++ "/tsconfig.build.json"),
     Ev.writeFileEv (directory ++ "/tsconfig.build.json")] ++
    (if scope ≠ "" then
      [Ev.readFileEv (directory ++ "/tsconfig.json"),
       Ev.writeFileEv (directory ++ "/tsconfig.json")]
     else [])
   else
    [Ev.readFileEv (directory ++ "/tsconfig.json"),
     Ev.writeFileEv (directory ++ "/tsconfig.json")]) ++
  [Ev.runCmd ("npm " ++ workspace ++ " pkg set scripts.lint=\"npx eslint .\"")] ++
  (if workspace ≠ "" then
    [Ev.runCmd ("npm " ++ workspace ++ " pkg set scripts.build=\"tsc --project tsconfig.build.json\"")]
   else [Ev.runCmd ("npm " ++ workspace ++ " pkg set scripts.build=\"tsc\"")]) ++
  [Ev.runCmd ("npm " ++ workspace ++ " pkg set scripts.test=\"vitest run\""),
   Ev.runCmd ("npm " ++ workspace ++ " pkg set scripts.test:watch=\"vitest watch\""),
   Ev.runCmd ("npm " ++ workspace ++ " pkg set main=\"dist/src/index.js\""),
   Ev.runCmd ("npm " ++ workspace ++ " pkg set types=\"dist/src/index.d.ts\"")] ++
  patchPackageJson workspace ++
  [Ev.runCmd ("npm " ++ workspace ++ " run lint"),
   Ev.runCmd ("npm " ++ workspace ++ " run build"),
   Ev.runCmd ("npm " ++ workspace ++ " run test")]

/-- The three root-level commands closing the monorepo flow (lines 483-490). -/
def monorepoRootFinish : List Ev :=
  [Ev.runCmd "npm pkg set scripts.build=\"npm run build -ws\"",
   Ev.runCmd "npm pkg set scripts.lint=\"npm run lint -ws\"",
   Ev.runCmd "npm pkg set scripts.test=\"npm run test -ws\"",
   Ev.runCmd "npm run build",
   Ev.runCmd "npm run lint",
   Ev.runCmd "npm run test"]

/-- cli.js lines 449-490, the `isMonorepo` branch: eslint patch, shared
tooling, then `packages/lib` (init + full provisioning) strictly before
`packages/app`, then root script rewiring and root build/lint/test. -/
def monorepoFlow (scope license : String) : List Ev :=
  [Ev.readFileEv ".eslintrc.cjs", Ev.writeFileEv ".eslintrc.cjs",
   Ev.runCmd "npm install --save-dev typescript @sindresorhus/tsconfig",
   Ev.runCmd ("npm init -y -w ./packages/lib " ++
      (if scope = "" then "" else "--scope=" ++ scope))] ++
  preparePackage "packages/lib" "-w ./packages/lib" "src/index.ts" "test/index.test.ts"
    license scope ++
  Ev.runCmd ("npm init -y -w ./packages/app " ++
      (if scope = "" then "" else "--scope=" ++ scope)) ::
  (preparePackage "packages/app" "-w ./packages/app" "src/main.ts" "test/main.test.ts"
    license scope ++
   monorepoRootFinish)

/-- cli.js lines 491-509, the `isCreatingWorkspace` branch. -/
def addWorkspaceFlow (createWorkspace scope license : String) : List Ev :=
  [Ev.runCmd ("npm init -y -w " ++ createWorkspace ++ " " ++
      (if scope = "" then "" else "--scope=" ++ scope))] ++
  preparePackage createWorkspace ("-w " ++ createWorkspace) "src/index.ts"
    "test/index.test.ts" license scope ++
  [Ev.runCmd "npm run build", Ev.runCmd "npm run lint", Ev.runCmd "npm run test"]

/-- cli.js lines 510-518, the single-package branch. -/
def singleFlow (scope license : String) : List Ev :=
  preparePackage "." "" "src/index.ts" "test/index.test.ts" license scope

/-- cli.js lines 350-364: root template copy and the three root installs,
performed only when not creating a workspace. -/
def rootSetupEvents : List Ev :=
  [Ev.copyDirEv "template-files/root" ".",
   Ev.runCmd ("npm install --save-dev eslint-plugin-prettier eslint-config-prettier " ++
     "eslint-config-xo eslint-config-xo-typescript @typescript-eslint/parser @typescript-eslint/eslint-plugin " ++
     "eslint-plugin-unicorn eslint-plugin-import eslint-import-resolver-typescript"),
   Ev.runCmd "npm install --save-dev --save-exact prettier",
   Ev.runCmd "npm install --save-dev  @sindresorhus/tsconfig"]

/-- One of the three mode branches (cli.js lines 449-518). -/
def mainBranch (createWorkspace : String) (isCreatingWorkspace isMonorepo : Bool)
    (scope license : String) : List Ev :=
  if isMonorepo then monorepoFlow scope license
  else if isCreatingWorkspace then addWorkspaceFlow createWorkspace scope license
  else singleFlow scope license

/-- All inputs of one CLI invocation: flags, the observed filesystem facts,
and the prompt answers. -/
structure Inputs where
  yesArg : Bool
  monorepoArg : Bool
  wsArg : String
  scopeArg : String
  dirEmpty : Bool
  pkgExists : Bool
  rootLicense : String
  emptyAnswer : Bool
  monorepoAnswer : Bool
  wsAnswer : Option String
  scopeAnswer : Option String
deriving DecidableEq, Repr

/-- How a run ends: early `process.exit(0)`, a thrown error, or completion. -/
inductive Outcome where
  | exited
  | failed (msg : String)
  | done
deriving DecidableEq, Repr

/-- A run: its event trace, how it ended, and (as ghost observations) the
resolved decisions. -/
structure RunLog where
  trace : List Ev
  outcome : Outcome
  isMonorepo : Bool
  isCreatingWorkspace : Bool
  scope : String
deriving DecidableEq, Repr

/-- The resolved workspace value (`createWorkspace`, cli.js line 332). -/
def resolvedWorkspace (i : Inputs) (isEmpty : Bool) : Option String :=
  (checkCreateWorkspace i.wsArg isEmpty i.pkgExists i.wsAnswer).2

/-- `isCreatingWorkspace = Boolean(createWorkspace)` (cli.js line 334). -/
def resolvedCreatingWs (i : Inputs) (isEmpty : Bool) : Bool :=
  jsTruthyOpt (resolvedWorkspace i isEmpty)

/-- `isMonorepo` (cli.js line 336; note the negated argument). -/
def resolvedMonorepo (i : Inputs) (isEmpty : Bool) : Bool :=
  (checkCreateMonorepo (!resolvedCreatingWs i isEmpty) i.monorepoArg i.monorepoAnswer).2

/-- The `isOptional` argument of `getScope` (cli.js line 338):
`!isMonorepo && !isCreatingWorkspace`. -/
def scopeOptionalFlag (i : Inputs) (isEmpty : Bool) : Bool :=
  !resolvedMonorepo i isEmpty && !resolvedCreatingWs i isEmpty

/-- The scope resolution result (cli.js line 338). -/
def resolvedScopeRes (i : Inputs) (isEmpty : Bool) : Except String String :=
  (getScope i.scopeArg (scopeOptionalFlag i isEmpty) i.scopeAnswer).2

/-- The events of lines 332-338 (workspace check, monorepo check, scope). -/
def preScopeTrace (i : Inputs) (isEmpty : Bool) : List Ev :=
  (checkCreateWorkspace i.wsArg isEmpty i.pkgExists i.wsAnswer).1 ++
  (checkCreateMonorepo (!resolvedCreatingWs i isEmpty) i.monorepoArg i.monorepoAnswer).1 ++
  (getScope i.scopeArg (scopeOptionalFlag i isEmpty) i.scopeAnswer).1

/-- cli.js lines 332-522: everything after the empty-directory check,
given the `isEmpty` it returned.  A scope-resolution error (the thrown
`"Scope is required"`) aborts the run with nothing after line 338. -/
def afterEmpty (i : Inputs) (isEmpty : Bool) : RunLog :=
  match resolvedScopeRes i isEmpty with
  | .error msg =>
    ⟨preScopeTrace i isEmpty, .failed msg,
     resolvedMonorepo i isEmpty, resolvedCreatingWs i isEmpty, ""⟩
  | .ok scope =>
    ⟨preScopeTrace i isEmpty ++
       checkPackageJson i.yesArg i.pkgExists scope ++
       (if !resolvedCreatingWs i isEmpty then rootSetupEvents else []) ++
       [Ev.readFileEv "package.json"] ++
       mainBranch ((resolvedWorkspace i isEmpty).getD "") (resolvedCreatingWs i isEmpty)
         (resolvedMonorepo i isEmpty) scope i.rootLicense ++
       (if i.rootLicense = "" ∧ (resolvedMonorepo i isEmpty || resolvedCreatingWs i isEmpty) = true
        then [Ev.errEv "No license found in root package.json, please check child packages manually if needed"]
        else []),
     .done, resolvedMonorepo i isEmpty, resolvedCreatingWs i isEmpty, scope⟩

/-- cli.js lines 327-522, the whole flow (the banner log of line 10 is
omitted; it is the only effect before `checkEmptyDirectory`). -/
def mainFlow (i : Inputs) : RunLog :=
  match (checkEmptyDirectory i.dirEmpty i.wsArg i.emptyAnswer).2 with
  | none =>
    ⟨(checkEmptyDirectory i.dirEmpty i.wsArg i.emptyAnswer).1, .exited, false, false, ""⟩
  | some isEmpty =>
    ⟨(checkEmptyDirectory i.dirEmpty i.wsArg i.emptyAnswer).1 ++ (afterEmpty i isEmpty).trace,
     (afterEmpty i isEmpty).outcome, (afterEmpty i isEmpty).isMonorepo,
     (afterEmpty i isEmpty).isCreatingWorkspace, (afterEmpty i isEmpty).scope⟩

/-- The run does not hit the declined-empty-directory early exit. -/
def passesEmptyCheck (i : Inputs) : Bool :=
  !(!i.dirEmpty && (i.wsArg = "" : Bool) && !i.emptyAnswer)

/-- Is the event any interactive prompt? -/
def isPromptEv : Ev → Bool
  | .promptConfirm _ => true
  | .promptText _ => true
  | _ => false

/-- Is the event one of the two possible scope prompts? -/
def isScopePromptEv : Ev → Bool
  | .promptText m => m == "Scope" || m == "Scope (optional)"
  | _ => false

/-- Is the event the empty-directory confirmation prompt? -/
def isEmptyDirPromptEv : Ev → Bool
  | .promptConfirm m => m == "Current directory is not empty, continue?"
  | _ => false

/-- Does the event mutate the filesystem or spawn an external command? -/
def isMutationEv : Ev → Bool
  | .runCmd _ => true
  | .writeFileEv _ => true
  | .mkdirEv _ => true
  | .copyFileEv _ _ => true
  | .copyDirEv _ _ => true
  | _ => false

/-- The `@`-normalization applied to a non-empty `--scope` flag value
(cli.js lines 95-101). -/
def normalizeFlagScope (s : String) : String :=
  if jsStartsWith s "@" then s else "@" ++ s

/-! ## Helper lemmas -/

theorem exists_of_isPrefixOf {α : Type} [DecidableEq α] :
    ∀ (pat l : List α), pat.isPrefixOf l = true → ∃ q, l = pat ++ q := by
  intro pat
  induction pat with
  | nil => intro l _; exact ⟨l, rfl⟩
  | cons a as ih =>
    intro l h
    cases l with
    | nil => simp [List.isPrefixOf] at h
    | cons b bs =>
      simp only [List.isPrefixOf, Bool.and_eq_true, beq_iff_eq] at h
      obtain ⟨q, hq⟩ := ih bs h.2
      exact ⟨q, by simp [h.1, hq]⟩

theorem replaceFirst_of_not_occurs (pat rep : List Char) :
    ∀ s, occursIn pat s = false → replaceFirst pat rep s = s := by
  intro s
  induction s with
  | nil =>
    intro h
    simp only [occursIn] at h
    have hpat : pat ≠ [] := by
      intro hp
      subst hp
      simp [List.isPrefixOf] at h
    simp [replaceFirst, hpat]
  | cons c rest ih =>
    intro h
    simp only [occursIn, Bool.or_eq_false_iff] at h
    simp [replaceFirst, h.1, ih h.2]

theorem replaceFirst_of_occurs (pat rep : List Char) :
    ∀ s, occursIn pat s = true →
      ∃ p q, s = p ++ pat ++ q ∧ replaceFirst pat rep s = p ++ rep ++ q := by
  intro s
  induction s with
  | nil =>
    intro h
    simp only [occursIn] at h
    obtain ⟨q, hq⟩ := exists_of_isPrefixOf pat [] h
    have hpat : pat = [] := by
      cases pat with
      | nil => rfl
      | cons a as => simp at hq
    exact ⟨[], [], by simp [hpat], by simp [replaceFirst, hpat]⟩
  | cons c rest ih =>
    intro h
    simp only [occursIn, Bool.or_eq_true] at h
    by_cases hp : pat.isPrefixOf (c :: rest) = true
    · obtain ⟨q, hq⟩ := exists_of_isPrefixOf pat (c :: rest) hp
      refine ⟨[], q, by simpa using hq, ?_⟩
      simp only [replaceFirst, hp, if_true, List.nil_append]
      rw [hq, List.drop_left]
    · obtain ⟨p, q, hs, hr⟩ := ih (h.resolve_left hp)
      refine ⟨c :: p, q, by simp [hs], ?_⟩
      simp [replaceFirst, hp, hr]

/-! ## Claim theorems -/

/-- C9: the `.eslintrc.cjs` substring edit is a byte-for-byte no-op when the
exact commented-out pattern is absent (and, being a total function, cannot
throw); when the pattern is present, the first occurrence of exactly that
line is replaced by the active rule parameterized by the scope, leaving the
surrounding document unchanged. -/
theorem eslint_patch_noop_or_replaces_pattern (scope doc : String) :
    (occursIn eslintPattern.data doc.data = false →
      patchEslintImportInternal scope doc = doc) ∧
    (occursIn eslintPattern.data doc.data = true →
      ∃ p q, doc.data = p ++ eslintPattern.data ++ q ∧
        (patchEslintImportInternal scope doc).data =
          p ++ (eslintReplacement scope).data ++ q) := by
  constructor
  · intro h
    unfold patchEslintImportInternal
    rw [replaceFirst_of_not_occurs _ _ _ h]
  · intro h
    obtain ⟨p, q, hs, hr⟩ :=
      replaceFirst_of_occurs eslintPattern.data (eslintReplacement scope).data doc.data h
    exact ⟨p, q, hs, hr⟩

/-- C9 witness: at a document without the pattern the edit is the identity;
at a document with it, the decomposition exists. -/
theorem eslint_patch_witness :
    (patchEslintImportInternal "@foo" "module.exports = 1;" = "module.exports = 1;") ∧
    (∃ p q, ("aa " ++ eslintPattern ++ " bb").data = p ++ eslintPattern.data ++ q ∧
      (patchEslintImportInternal "@foo" ("aa " ++ eslintPattern ++ " bb")).data =
        p ++ (eslintReplacement "@foo").data ++ q) :=
  ⟨(eslint_patch_noop_or_replaces_pattern "@foo" "module.exports = 1;").1 (by decide),
   (eslint_patch_noop_or_replaces_pattern "@foo" ("aa " ++ eslintPattern ++ " bb")).2
     (by decide)⟩

/-- C4: the runner promise keeps its first settlement, so it resolves
exactly on exit code 0; any other exit (including the `null` code of a
signal-killed child) rejects carrying that code; a spawn error rejects; and
the pipe teardown (`destroyPipes`) runs on every path. -/
theorem runCommand_settlement (code : Option Int) :
    (firstSettle (exitActions code) =
      some (if code = some 0 then PAction.resolveA else PAction.rejectExit code)) ∧
    (firstSettle (exitActions code) = some PAction.resolveA ↔ code = some 0) ∧
    firstSettle errorActions = some PAction.rejectSpawn ∧
    1 ≤ (exitActions code).count PAction.destroy ∧
    1 ≤ errorActions.count PAction.destroy := by
  by_cases h : code = some 0 <;>
    simp [exitActions, errorActions, firstSettle, isSettle, h, List.find?, List.count_cons]

/-- C2: across the two compiler-configuration documents of one package, the
outDir and include edits each land exactly once — on `tsconfig.build.json`
iff the package is a workspace member, on the sole `tsconfig.json`
otherwise; the scope path-mapping edit appears exactly when the scope is
non-empty, and never on the extended `tsconfig.build.json`. -/
theorem tsconfig_edits_exactly_once (ws : Bool) (scope : String) :
    (((tsconfigPatchPlan ws scope).1 ++ (tsconfigPatchPlan ws scope).2).count outDirPatch = 1) ∧
    (((tsconfigPatchPlan ws scope).1 ++ (tsconfigPatchPlan ws scope).2).count includePatch = 1) ∧
    ((tsconfigPatchPlan ws scope).1.count outDirPatch = if ws then 1 else 0) ∧
    ((tsconfigPatchPlan ws scope).1.count includePatch = if ws then 1 else 0) ∧
    (((tsconfigPatchPlan ws scope).1 ++ (tsconfigPatchPlan ws scope).2).count (pathsPatch scope)
       = if scope = "" then 0 else 1) ∧
    ((tsconfigPatchPlan ws scope).1.count (pathsPatch scope) = 0) := by
  have houtp : outDirPatch ≠ pathsPatch scope := by
    simp [outDirPatch, pathsPatch]
  have hincp : includePatch ≠ pathsPatch scope := by
    simp [includePatch, pathsPatch]
  cases ws <;> by_cases h : scope = "" <;>
    simp [tsconfigPatchPlan, patchTsconfigJson, h, List.count_cons, List.count_append,
      outDirPatch, includePatch, pathsPatch]

/-- C10: a whitespace-only prompt answer is truthy in JS, so it passes the
`!response.value` check — the required-scope error is not raised even when
the scope is mandatory — and it normalizes (via `trim`) to the empty
string; a non-empty flag value, by contrast, is returned without any
trimming, only `@`-prefixed when needed. -/
theorem whitespace_answer_passes_and_flag_untrimmed
    (w : String) (hw : w ≠ "") (hws : jsTrim w = "")
    (opt : Bool) (f : String) (hf : f ≠ "") (ans : Option String) :
    (getScope "" opt (some w)).2 = .ok "" ∧
    (getScope f opt ans).2 = .ok (normalizeFlagScope f) := by
  constructor
  · simp [getScope, hw, hws]
  · simp [getScope, hf, normalizeFlagScope]

/-- C10 witness: the answer `" "` yields the empty scope with no failure
even when the scope is mandatory, and the flag value `"@foo "` keeps its
trailing space. -/
theorem whitespace_answer_witness :
    (getScope "" false (some " ")).2 = .ok "" ∧
    (getScope "@foo " false none).2 = .ok (normalizeFlagScope "@foo ") :=
  whitespace_answer_passes_and_flag_untrimmed " " (by decide) (by decide)
    false "@foo " (by decide) none

/-- C6 counterexample: the prompt answer `"@a "` starts with the marker, yet
the normalized scope is the trimmed `"@a"`, not the unchanged answer. -/
theorem scope_normalization_counterexample :
    jsStartsWith "@a " "@" = true ∧
    (getScope "" true (some "@a ")).2 = .ok "@a" ∧
    (getScope "" true (some "@a ")).2 ≠ .ok "@a " := by
  refine ⟨by decide, rfl, ?_⟩
  intro h
  exact absurd (Except.ok.inj h) (by decide)

/-- C6 amended: a non-empty flag value is normalized exactly as the claim
says (unchanged when marker-led, else marker-prefixed), but an empty flag
falls back to the prompt; a prompt answer is handled as follows: empty or
declined answers give the empty scope when optional and fail otherwise;
whitespace-only answers give the empty scope; marker-led answers are
returned trimmed of surrounding whitespace (so unchanged only when they
have none); all other answers get the marker prepended untrimmed. -/
theorem scope_normalization_amended (s : String) (opt : Bool) (ans : Option String) :
    (s ≠ "" → (getScope s opt ans).2 = .ok (normalizeFlagScope s)) ∧
    (ans = none ∨ ans = some "" →
      (getScope "" opt ans).2 = if opt then .ok "" else .error "Scope is required") ∧
    (∀ v, ans = some v → v ≠ "" → jsTrim v = "" →
      (getScope "" opt ans).2 = .ok "") ∧
    (∀ v, ans = some v → v ≠ "" → jsStartsWith v "@" = true →
      (getScope "" opt ans).2 = .ok (jsTrim v)) ∧
    (∀ v, ans = some v → v ≠ "" → jsTrim v ≠ "" → jsStartsWith v "@" = false →
      (getScope "" opt ans).2 = .ok ("@" ++ v)) := by
  refine ⟨?_, ?_, ?_, ?_, ?_⟩
  · intro hs
    simp [getScope, hs, normalizeFlagScope]
  · rintro (rfl | rfl) <;> simp [getScope]
  · rintro v rfl hv hvt
    simp [getScope, hv, hvt]
  · rintro v rfl hv hvs
    simp [getScope, hv, hvs]
  · rintro v rfl hv hvt hvs
    simp [getScope, hv, hvt, hvs]

/-- C6 amended witness: evaluated at flag `"foo"`, at a declined optional
prompt, and at the marker-led answer `"@a "`. -/
theorem scope_normalization_amended_witness :
    ((getScope "foo" true none).2 = .ok (normalizeFlagScope "foo")) ∧
    ((getScope "" true none).2 = if true then .ok "" else .error "Scope is required") ∧
    ((getScope "" true (some "@a ")).2 = .ok (jsTrim "@a ")) :=
  ⟨(scope_normalization_amended "foo" true none).1 (by decide),
   (scope_normalization_amended "x" true none).2.1 (Or.inl rfl),
   (scope_normalization_amended "x" true (some "@a ")).2.2.2.1 "@a " rfl (by decide) (by decide)⟩

theorem checkCreateMonorepo_of_creating (monorepoArg ans : Bool) :
    checkCreateMonorepo false monorepoArg ans =
      ((if monorepoArg then [Ev.warnEv "Ignoring --monorepo flag since creating a workspace"]
        else []), false) := by
  simp [checkCreateMonorepo]

theorem afterEmpty_isMonorepo (i : Inputs) (isEmpty : Bool) :
    (afterEmpty i isEmpty).isMonorepo = resolvedMonorepo i isEmpty := by
  cases h : resolvedScopeRes i isEmpty <;> simp [afterEmpty, h]

theorem afterEmpty_isCreatingWs (i : Inputs) (isEmpty : Bool) :
    (afterEmpty i isEmpty).isCreatingWorkspace = resolvedCreatingWs i isEmpty := by
  cases h : resolvedScopeRes i isEmpty <;> simp [afterEmpty, h]

theorem resolvedMonorepo_of_creating (i : Inputs) (isEmpty : Bool)
    (h : resolvedCreatingWs i isEmpty = true) : resolvedMonorepo i isEmpty = false := by
  unfold resolvedMonorepo
  rw [h]
  simp [checkCreateMonorepo_of_creating]

theorem afterEmpty_creating_not_monorepo (i : Inputs) (isEmpty : Bool) :
    (afterEmpty i isEmpty).isCreatingWorkspace = true →
      (afterEmpty i isEmpty).isMonorepo = false := by
  rw [afterEmpty_isCreatingWs, afterEmpty_isMonorepo]
  exact resolvedMonorepo_of_creating i isEmpty

/-- C7: when a workspace is being created, the monorepo decision is forced
false with no prompt, warning exactly when the `--monorepo` flag is also
present; otherwise the flag wins without a prompt, and failing both, a
confirmation prompt decides.  In the full flow, a resolved workspace
creation always forces `isMonorepo` to false. -/
theorem monorepo_decision_forced (creatingWs monorepoArg ans : Bool) :
    ((checkCreateMonorepo (!creatingWs) monorepoArg ans).2 =
       if creatingWs then false else if monorepoArg then true else ans) ∧
    (creatingWs = true →
      (checkCreateMonorepo (!creatingWs) monorepoArg ans).1 =
        (if monorepoArg then
          [Ev.warnEv "Ignoring --monorepo flag since creating a workspace"] else []) ∧
      (checkCreateMonorepo (!creatingWs) monorepoArg ans).1.any isPromptEv = false) ∧
    (creatingWs = false → monorepoArg = true →
      checkCreateMonorepo (!creatingWs) monorepoArg ans = ([], true)) ∧
    (creatingWs = false → monorepoArg = false →
      checkCreateMonorepo (!creatingWs) monorepoArg ans =
        ([Ev.promptConfirm "Create monorepo?"], ans)) ∧
    (∀ i : Inputs, (mainFlow i).isCreatingWorkspace = true →
      (mainFlow i).isMonorepo = false) := by
  refine ⟨?_, ?_, ?_, ?_, ?_⟩
  · cases creatingWs <;> cases monorepoArg <;> simp [checkCreateMonorepo]
  · rintro rfl
    cases monorepoArg <;> simp [checkCreateMonorepo, isPromptEv]
  · rintro rfl rfl
    simp [checkCreateMonorepo]
  · rintro rfl rfl
    simp [checkCreateMonorepo]
  · intro i
    cases h : (checkEmptyDirectory i.dirEmpty i.wsArg i.emptyAnswer).2 with
    | none => simp [mainFlow, h]
    | some e =>
      simp only [mainFlow, h]
      exact afterEmpty_creating_not_monorepo i e

/-- C7 witness: with a workspace being created and the `--monorepo` flag
given, the decision is false, the warning fires, and no prompt is shown. -/
theorem monorepo_decision_witness :
    ((checkCreateMonorepo (!true) true false).2 = if true then false else if true then true else false) ∧
    ((checkCreateMonorepo (!true) true false).1 =
      [Ev.warnEv "Ignoring --monorepo flag since creating a workspace"]) ∧
    ((checkCreateMonorepo (!true) true false).1.any isPromptEv = false) ∧
    (checkCreateMonorepo (!false) true true = ([], true)) ∧
    (checkCreateMonorepo (!false) false true = ([Ev.promptConfirm "Create monorepo?"], true)) := by
  have h := monorepo_decision_forced true true false
  have h2 := monorepo_decision_forced false true true
  have h3 := monorepo_decision_forced false false true
  exact ⟨h.1, by simpa using (h.2.1 rfl).1, (h.2.1 rfl).2,
    h2.2.2.1 rfl rfl, h3.2.2.2.1 rfl rfl⟩

/-- C8: the resolved workspace path is forced empty whenever the directory
is empty (warning exactly when a flag value was supplied) and whenever no
`package.json` exists; otherwise the flag value wins, else the prompt
answer is used verbatim.  The hypothesis records the filesystem fact that
an empty directory contains no `package.json`. -/
theorem workspace_path_resolution (wsArg : String) (isEmpty pkgExists : Bool)
    (ans : Option String) (hfs : isEmpty = true → pkgExists = false) :
    (isEmpty = true →
      (checkCreateWorkspace wsArg isEmpty pkgExists ans).2 = some "" ∧
      (Ev.warnEv "Ignoring --workspace flag since current directory is empty" ∈
          (checkCreateWorkspace wsArg isEmpty pkgExists ans).1 ↔ wsArg ≠ "")) ∧
    (pkgExists = false →
      (checkCreateWorkspace wsArg isEmpty pkgExists ans).2 = some "") ∧
    (isEmpty = false → pkgExists = true →
      (wsArg ≠ "" → checkCreateWorkspace wsArg isEmpty pkgExists ans = ([], some wsArg)) ∧
      (wsArg = "" → checkCreateWorkspace wsArg isEmpty pkgExists ans =
        ([Ev.promptText "Workspace to create (e.g. packages/demoLib)"], ans))) := by
  refine ⟨?_, ?_, ?_⟩
  · rintro rfl
    have hpkg := hfs rfl
    subst hpkg
    by_cases hw : wsArg = "" <;> simp [checkCreateWorkspace, hw]
  · rintro hpkg
    subst hpkg
    cases isEmpty <;> by_cases hw : wsArg = "" <;> simp [checkCreateWorkspace, hw]
  · rintro rfl rfl
    constructor
    · intro hw
      simp [checkCreateWorkspace, hw]
    · intro hw
      simp [checkCreateWorkspace, hw]

/-- C8 witness: in a non-empty directory with a manifest, the flag value
wins; evaluated alongside the forced-empty cases. -/
theorem workspace_path_resolution_witness :
    (checkCreateWorkspace "packages/a" false true none = ([], some "packages/a")) ∧
    ((checkCreateWorkspace "packages/a" true false none).2 = some "") ∧
    ((checkCreateWorkspace "" false false none).2 = some "") :=
  ⟨((workspace_path_resolution "packages/a" false true none (by simp)).2.2 rfl rfl).1
      (by decide),
   ((workspace_path_resolution "packages/a" true false none (by simp)).1 rfl).1,
   (workspace_path_resolution "" false false none (by simp)).2.1 rfl⟩

theorem any_eq_false_mono {l : List Ev} {p q : Ev → Bool}
    (hpq : ∀ e, p e = true → q e = true) (h : l.any q = false) : l.any p = false := by
  rw [List.any_eq_false] at h ⊢
  intro e he hp
  exact h e he (hpq e hp)

theorem isEmptyDirPromptEv_imp_isPromptEv (e : Ev) :
    isEmptyDirPromptEv e = true → isPromptEv e = true := by
  cases e <;> simp [isEmptyDirPromptEv, isPromptEv]

theorem isScopePromptEv_imp_isPromptEv (e : Ev) :
    isScopePromptEv e = true → isPromptEv e = true := by
  cases e <;> simp [isScopePromptEv, isPromptEv]

theorem getScope_events (sa : String) (opt : Bool) (ans : Option String) :
    (getScope sa opt ans).1 =
      if sa ≠ "" then []
      else [Ev.promptText (if opt then "Scope (optional)" else "Scope")] := by
  by_cases h : sa = "" <;> simp [getScope, h]

theorem getScope_flag (sa : String) (opt : Bool) (ans : Option String) (h : sa ≠ "") :
    getScope sa opt ans = ([], .ok (normalizeFlagScope sa)) := by
  simp [getScope, h, normalizeFlagScope]

theorem getScope_falsy_answer (opt : Bool) (ans : Option String)
    (h : ans = none ∨ ans = some "") :
    (getScope "" opt ans).2 =
      if opt then .ok "" else .error "Scope is required" := by
  rcases h with rfl | rfl <;> simp [getScope]

theorem patchPackageJson_no_prompt (w : String) :
    (patchPackageJson w).any isPromptEv = false := by
  simp [patchPackageJson, isPromptEv]

theorem checkPackageJson_no_prompt (y p : Bool) (s : String) :
    (checkPackageJson y p s).any isPromptEv = false := by
  cases p <;> by_cases hs : s = "" <;> cases y <;>
    simp [checkPackageJson, patchPackageJson, hs, isPromptEv]

theorem rootSetupEvents_no_prompt : rootSetupEvents.any isPromptEv = false := by
  simp [rootSetupEvents, isPromptEv]

theorem preparePackage_no_prompt (d w s t lic sc : String) :
    (preparePackage d w s t lic sc).any isPromptEv = false := by
  by_cases h1 : lic = "" <;> by_cases h2 : w = "" <;> by_cases h3 : sc = "" <;>
    simp [preparePackage, patchPackageJson, h1, h2, h3, isPromptEv]

theorem monorepoRootFinish_no_prompt : monorepoRootFinish.any isPromptEv = false := by
  simp [monorepoRootFinish, isPromptEv]

theorem monorepoFlow_no_prompt (sc lic : String) :
    (monorepoFlow sc lic).any isPromptEv = false := by
  by_cases h : sc = "" <;>
    simp [monorepoFlow, h, isPromptEv, preparePackage_no_prompt, monorepoRootFinish_no_prompt]

theorem addWorkspaceFlow_no_prompt (cw sc lic : String) :
    (addWorkspaceFlow cw sc lic).any isPromptEv = false := by
  by_cases h : sc = "" <;>
    simp [addWorkspaceFlow, h, isPromptEv, preparePackage_no_prompt]

theorem singleFlow_no_prompt (sc lic : String) :
    (singleFlow sc lic).any isPromptEv = false := by
  simp [singleFlow, preparePackage_no_prompt]

theorem mainBranch_no_prompt (cw : String) (c m : Bool) (sc lic : String) :
    (mainBranch cw c m sc lic).any isPromptEv = false := by
  cases c <;> cases m <;>
    simp [mainBranch, monorepoFlow_no_prompt, addWorkspaceFlow_no_prompt, singleFlow_no_prompt]

theorem checkCreateWorkspace_no_emptyDirPrompt (wsArg : String) (isEmpty pkgExists : Bool)
    (ans : Option String) :
    (checkCreateWorkspace wsArg isEmpty pkgExists ans).1.any isEmptyDirPromptEv = false := by
  cases isEmpty <;> cases pkgExists <;> by_cases hw : wsArg = "" <;>
    simp [checkCreateWorkspace, hw, isEmptyDirPromptEv]

theorem checkCreateMonorepo_no_emptyDirPrompt (c m a : Bool) :
    (checkCreateMonorepo c m a).1.any isEmptyDirPromptEv = false := by
  cases c <;> cases m <;> simp [checkCreateMonorepo, isEmptyDirPromptEv]

theorem afterEmpty_no_emptyDirPrompt (i : Inputs) (e : Bool) :
    (afterEmpty i e).trace.any isEmptyDirPromptEv = false := by
  have hgs : (getScope i.scopeArg (scopeOptionalFlag i e) i.scopeAnswer).1.any
      isEmptyDirPromptEv = false := by
    rw [getScope_events]
    by_cases h : i.scopeArg = "" <;> simp [h, isEmptyDirPromptEv]
  have hpre : (preScopeTrace i e).any isEmptyDirPromptEv = false := by
    simp [preScopeTrace, checkCreateWorkspace_no_emptyDirPrompt,
      checkCreateMonorepo_no_emptyDirPrompt, hgs]
  cases h : resolvedScopeRes i e with
  | error msg => simp [afterEmpty, h, hpre]
  | ok scope =>
    have h5 := any_eq_false_mono isEmptyDirPromptEv_imp_isPromptEv
      (checkPackageJson_no_prompt i.yesArg i.pkgExists scope)
    have h6 := any_eq_false_mono isEmptyDirPromptEv_imp_isPromptEv rootSetupEvents_no_prompt
    have h8 := any_eq_false_mono isEmptyDirPromptEv_imp_isPromptEv
      (mainBranch_no_prompt ((resolvedWorkspace i e).getD "") (resolvedCreatingWs i e)
        (resolvedMonorepo i e) scope i.rootLicense)
    simp only [afterEmpty, h, List.any_append, Bool.or_eq_false_iff, List.any_cons,
      List.any_nil]
    and_intros <;>
      first
        | exact hpre
        | exact h5
        | exact h8
        | (simp [isEmptyDirPromptEv]; done)
        | (split
           · exact h6
           · rfl)

/-- C5: the empty-directory confirmation prompt occurs in the trace of a run
exactly when the directory is non-empty and no workspace flag was given;
and declining it ends the run at `process.exit(0)` with the prompt, the
farewell log, and the exit as the only events — no command was run, no
file written. -/
theorem empty_dir_prompt_iff_and_declined_clean_exit :
    (∀ i : Inputs,
      ((mainFlow i).trace.any isEmptyDirPromptEv = true ↔
        i.dirEmpty = false ∧ i.wsArg = "")) ∧
    (∀ i : Inputs, i.dirEmpty = false → i.wsArg = "" → i.emptyAnswer = false →
      mainFlow i = ⟨[Ev.promptConfirm "Current directory is not empty, continue?",
                     Ev.logEv "Exiting...", Ev.exitEv 0], Outcome.exited, false, false, ""⟩ ∧
      (mainFlow i).trace.any isMutationEv = false) := by
  constructor
  · intro i
    cases hd : i.dirEmpty <;> by_cases hw : i.wsArg = "" <;> cases ha : i.emptyAnswer <;>
      simp [mainFlow, checkEmptyDirectory, hd, hw, ha, afterEmpty_no_emptyDirPrompt,
        isEmptyDirPromptEv]
  · intro i h1 h2 h3
    have heq : mainFlow i = ⟨[Ev.promptConfirm "Current directory is not empty, continue?",
        Ev.logEv "Exiting...", Ev.exitEv 0], Outcome.exited, false, false, ""⟩ := by
      simp [mainFlow, checkEmptyDirectory, h1, h2, h3]
    refine ⟨heq, ?_⟩
    rw [heq]
    rfl

/-- C5 witness: a run in a non-empty directory with no flags whose user
declines the prompt. -/
theorem empty_dir_declined_witness :
    mainFlow ⟨false, false, "", "", false, true, "", false, false, none, none⟩ =
      ⟨[Ev.promptConfirm "Current directory is not empty, continue?",
        Ev.logEv "Exiting...", Ev.exitEv 0], Outcome.exited, false, false, ""⟩ ∧
    (mainFlow ⟨false, false, "", "", false, true, "", false, false, none, none⟩).trace.any
      isMutationEv = false :=
  empty_dir_prompt_iff_and_declined_clean_exit.2
    ⟨false, false, "", "", false, true, "", false, false, none, none⟩ rfl rfl rfl

/-- C3: in the monorepo flow, the library package is fully provisioned —
its `preparePackage` trace, which ends with its own lint, build, and test
runs — strictly before the `npm init` that creates the application
workspace, which itself precedes all application-provisioning events; the
two index computations witness this on a concrete instantiation via first
occurrences. -/
theorem monorepo_lib_fully_before_app (scope license : String) :
    (monorepoFlow scope license =
      [Ev.readFileEv ".eslintrc.cjs", Ev.writeFileEv ".eslintrc.cjs",
       Ev.runCmd "npm install --save-dev typescript @sindresorhus/tsconfig",
       Ev.runCmd ("npm init -y -w ./packages/lib " ++
         (if scope = "" then "" else "--scope=" ++ scope))] ++
      preparePackage "packages/lib" "-w ./packages/lib" "src/index.ts" "test/index.test.ts"
        license scope ++
      Ev.runCmd ("npm init -y -w ./packages/app " ++
         (if scope = "" then "" else "--scope=" ++ scope)) ::
      (preparePackage "packages/app" "-w ./packages/app" "src/main.ts" "test/main.test.ts"
        license scope ++ monorepoRootFinish)) ∧
    ([Ev.runCmd "npm -w ./packages/lib run lint",
      Ev.runCmd "npm -w ./packages/lib run build",
      Ev.runCmd "npm -w ./packages/lib run test"] <:+
      preparePackage "packages/lib" "-w ./packages/lib" "src/index.ts" "test/index.test.ts"
        license scope) ∧
    List.indexOf (Ev.runCmd "npm init -y -w ./packages/app --scope=@foo")
        (monorepoFlow "@foo" "MIT") =
      4 + (preparePackage "packages/lib" "-w ./packages/lib" "src/index.ts" "test/index.test.ts"
        "MIT" "@foo").length ∧
    List.indexOf (Ev.runCmd "npm -w ./packages/lib run test") (monorepoFlow "@foo" "MIT") <
      List.indexOf (Ev.runCmd "npm init -y -w ./packages/app --scope=@foo")
        (monorepoFlow "@foo" "MIT") := by
  refine ⟨rfl, ?_, by decide, by decide⟩
  unfold preparePackage
  exact List.suffix_append _ _

theorem checkEmptyDirectory_passes (i : Inputs) (h : passesEmptyCheck i = true) :
    (checkEmptyDirectory i.dirEmpty i.wsArg i.emptyAnswer).2 = some i.dirEmpty := by
  cases hd : i.dirEmpty <;> by_cases hw : i.wsArg = "" <;> cases ha : i.emptyAnswer <;>
    first
      | (simp [checkEmptyDirectory, hd, hw, ha]; done)
      | (exfalso
         unfold passesEmptyCheck at h
         rw [hd, hw, ha] at h
         exact absurd h (by decide))

theorem mainFlow_passes_fields (i : Inputs) (h : passesEmptyCheck i = true) :
    (mainFlow i).outcome = (afterEmpty i i.dirEmpty).outcome ∧
    (mainFlow i).isMonorepo = (afterEmpty i i.dirEmpty).isMonorepo ∧
    (mainFlow i).isCreatingWorkspace = (afterEmpty i i.dirEmpty).isCreatingWorkspace ∧
    (mainFlow i).scope = (afterEmpty i i.dirEmpty).scope ∧
    (mainFlow i).trace =
      (checkEmptyDirectory i.dirEmpty i.wsArg i.emptyAnswer).1 ++
        (afterEmpty i i.dirEmpty).trace := by
  have h2 := checkEmptyDirectory_passes i h
  simp [mainFlow, h2]

theorem afterEmpty_falsy_scope (i : Inputs) (e : Bool) (h2 : i.scopeArg = "")
    (h3 : i.scopeAnswer = none ∨ i.scopeAnswer = some "") :
    ((afterEmpty i e).outcome = .failed "Scope is required" ↔
       (resolvedMonorepo i e || resolvedCreatingWs i e) = true) ∧
    ((resolvedMonorepo i e || resolvedCreatingWs i e) = false →
       (afterEmpty i e).outcome = .done ∧ (afterEmpty i e).scope = "") := by
  have hres : resolvedScopeRes i e =
      if scopeOptionalFlag i e then .ok "" else .error "Scope is required" := by
    unfold resolvedScopeRes
    rw [h2]
    exact getScope_falsy_answer _ _ h3
  have hopt : scopeOptionalFlag i e = !(resolvedMonorepo i e || resolvedCreatingWs i e) := by
    unfold scopeOptionalFlag
    simp [Bool.not_or]
  cases hmc : (resolvedMonorepo i e || resolvedCreatingWs i e) with
  | true =>
    rw [hopt, hmc] at hres
    simp only [Bool.not_true] at hres
    simp at hres
    constructor
    · simp [afterEmpty, hres]
    · intro hfalse
      exact absurd hfalse (by decide)
  | false =>
    rw [hopt, hmc] at hres
    simp only [Bool.not_false] at hres
    simp at hres
    constructor
    · simp [afterEmpty, hres]
    · intro _
      simp [afterEmpty, hres]

theorem checkCreateWorkspace_no_scopePrompt (wsArg : String) (isEmpty pkgExists : Bool)
    (ans : Option String) :
    (checkCreateWorkspace wsArg isEmpty pkgExists ans).1.any isScopePromptEv = false := by
  cases isEmpty <;> cases pkgExists <;> by_cases hw : wsArg = "" <;>
    simp [checkCreateWorkspace, hw, isScopePromptEv]

theorem checkCreateMonorepo_no_scopePrompt (c m a : Bool) :
    (checkCreateMonorepo c m a).1.any isScopePromptEv = false := by
  cases c <;> cases m <;> simp [checkCreateMonorepo, isScopePromptEv]

theorem afterEmpty_no_scopePrompt_of_flag (i : Inputs) (e : Bool) (h2 : i.scopeArg ≠ "") :
    (afterEmpty i e).trace.any isScopePromptEv = false := by
  have hgs : (getScope i.scopeArg (scopeOptionalFlag i e) i.scopeAnswer).1.any
      isScopePromptEv = false := by
    rw [getScope_events]
    simp [h2]
  have hpre : (preScopeTrace i e).any isScopePromptEv = false := by
    simp [preScopeTrace, checkCreateWorkspace_no_scopePrompt,
      checkCreateMonorepo_no_scopePrompt, hgs]
  cases h : resolvedScopeRes i e with
  | error msg => simp [afterEmpty, h, hpre]
  | ok scope =>
    have h5 := any_eq_false_mono isScopePromptEv_imp_isPromptEv
      (checkPackageJson_no_prompt i.yesArg i.pkgExists scope)
    have h6 := any_eq_false_mono isScopePromptEv_imp_isPromptEv rootSetupEvents_no_prompt
    have h8 := any_eq_false_mono isScopePromptEv_imp_isPromptEv
      (mainBranch_no_prompt ((resolvedWorkspace i e).getD "") (resolvedCreatingWs i e)
        (resolvedMonorepo i e) scope i.rootLicense)
    simp only [afterEmpty, h, List.any_append, Bool.or_eq_false_iff, List.any_cons,
      List.any_nil]
    and_intros <;>
      first
        | exact hpre
        | exact h5
        | exact h8
        | (simp [isScopePromptEv]; done)
        | (split
           · exact h6
           · rfl)

theorem checkEmptyDirectory_no_scopePrompt (d : Bool) (w : String) (a : Bool) :
    (checkEmptyDirectory d w a).1.any isScopePromptEv = false := by
  cases d <;> by_cases hw : w = "" <;> cases a <;>
    simp [checkEmptyDirectory, hw, isScopePromptEv]

/-- C1 counterexample: with the `--monorepo` flag selected (and no
workspace), the claim says the scope prompt is optional, so a declined
answer must yield an empty scope without failure — but the run throws
`"Scope is required"`. -/
theorem scope_requirement_counterexample :
    (mainFlow ⟨false, true, "", "", true, false, "", true, false, none, none⟩).isMonorepo
        = true ∧
    (mainFlow ⟨false, true, "", "", true, false, "", true, false, none, none⟩).isCreatingWorkspace
        = false ∧
    (mainFlow ⟨false, true, "", "", true, false, "", true, false, none, none⟩).outcome
        = .failed "Scope is required" := by
  decide

/-- C1 amended: the optionality is the inverse of the claim — with no
scope flag, an empty or declined prompt answer fails the run with
`"Scope is required"` exactly when monorepo mode or workspace-creation was
selected, and yields an empty scope without failure when neither was; a
non-empty `--scope` flag value always wins (normalized) and no scope
prompt occurs. -/
theorem scope_requirement_inverted :
    (∀ i : Inputs, passesEmptyCheck i = true → i.scopeArg = "" →
      (i.scopeAnswer = none ∨ i.scopeAnswer = some "") →
      (((mainFlow i).outcome = .failed "Scope is required") ↔
        ((mainFlow i).isMonorepo || (mainFlow i).isCreatingWorkspace) = true) ∧
      (((mainFlow i).isMonorepo || (mainFlow i).isCreatingWorkspace) = false →
        (mainFlow i).outcome = .done ∧ (mainFlow i).scope = "")) ∧
    (∀ i : Inputs, passesEmptyCheck i = true → i.scopeArg ≠ "" →
      (mainFlow i).outcome = .done ∧
      (mainFlow i).scope = normalizeFlagScope i.scopeArg ∧
      (mainFlow i).trace.any isScopePromptEv = false) := by
  constructor
  · intro i h1 h2 h3
    obtain ⟨ho, hm, hc, hs, ht⟩ := mainFlow_passes_fields i h1
    rw [ho, hm, hc, hs, afterEmpty_isMonorepo, afterEmpty_isCreatingWs]
    exact afterEmpty_falsy_scope i i.dirEmpty h2 h3
  · intro i h1 h2
    obtain ⟨ho, hm, hc, hs, ht⟩ := mainFlow_passes_fields i h1
    have hres : resolvedScopeRes i i.dirEmpty = .ok (normalizeFlagScope i.scopeArg) := by
      unfold resolvedScopeRes
      rw [getScope_flag _ _ _ h2]
    refine ⟨?_, ?_, ?_⟩
    · rw [ho]
      simp [afterEmpty, hres]
    · rw [hs]
      simp [afterEmpty, hres]
    · rw [ht]
      simp [checkEmptyDirectory_no_scopePrompt,
        afterEmpty_no_scopePrompt_of_flag i i.dirEmpty h2]

/-- C1 witness: a monorepo run with a declined scope prompt fails as
required; a single-package run with `--scope=foo` completes with the
normalized flag scope and no scope prompt. -/
theorem scope_requirement_inverted_witness :
    ((((mainFlow ⟨false, true, "", "", true, false, "", true, false, none, none⟩).outcome
          = .failed "Scope is required") ↔
       ((mainFlow ⟨false, true, "", "", true, false, "", true, false, none, none⟩).isMonorepo ||
        (mainFlow ⟨false, true, "", "", true, false, "", true, false, none, none⟩).isCreatingWorkspace) = true) ∧
     (((mainFlow ⟨false, true, "", "", true, false, "", true, false, none, none⟩).isMonorepo ||
       (mainFlow ⟨false, true, "", "", true, false, "", true, false, none, none⟩).isCreatingWorkspace) = false →
       (mainFlow ⟨false, true, "", "", true, false, "", true, false, none, none⟩).outcome = .done ∧
       (mainFlow ⟨false, true, "", "", true, false, "", true, false, none, none⟩).scope = "")) ∧
    ((mainFlow ⟨false, false, "", "foo", true, false, "", true, false, none, none⟩).outcome = .done ∧
     (mainFlow ⟨false, false, "", "foo", true, false, "", true, false, none, none⟩).scope =
       normalizeFlagScope "foo" ∧
     (mainFlow ⟨false, false, "", "foo", true, false, "", true, false, none, none⟩).trace.any
       isScopePromptEv = false) :=
  ⟨scope_requirement_inverted.1 ⟨false, true, "", "", true, false, "", true, false, none, none⟩
     (by decide) rfl (Or.inl rfl),
   scope_requirement_inverted.2 ⟨false, false, "", "foo", true, false, "", true, false, none, none⟩
     (by decide) (by decide)⟩

end Create
